import Mathlib

/-!
Shallow embedding of the TRP client in `src/sdk/tx3_sdk/trp.py` of
tx3-lang/python-sdk.

The client builds a JSON-RPC request from a prototype transaction and its
configuration, performs one HTTP POST, and maps the response (or any
failure) into either a transaction envelope or a single `Error` exception.
The embedding models parsed JSON values (as `json.loads` produces them),
the relevant Python operations on those values (`in`, subscripting,
`dict.get`, `dict.update`, truthiness, `str()`), the option validation of
`Client.__init__`, and the whole control flow of `Client.resolve` with the
HTTP transport outcome supplied as an explicit input.
-/

/-- JSON values as produced by parsing a response body with `json.loads`.
JSON `null` doubles as Python `None` (that is what `json.loads` returns
for it). Numbers are modelled as integers: no behaviour of `trp.py`
depends on fractional numbers. Object fields model a parsed Python dict,
so keys are unique and insertion-ordered. -/
inductive Json where
  | null
  | bool (b : Bool)
  | num (n : Int)
  | str (s : String)
  | arr (elems : List Json)
  | obj (fields : List (String × Json))

/-- Python truthiness (`bool(x)`) of a parsed JSON value. -/
def pyTruthy : Json → Bool
  | .null => false
  | .bool b => b
  | .num n => n != 0
  | .str s => !s.isEmpty
  | .arr xs => !xs.isEmpty
  | .obj kvs => !kvs.isEmpty

/-- Python `repr` of a string: single-quoted, unless the string contains a
single quote and no double quote, in which case it is double-quoted.
Backslashes and the chosen quote character are escaped; escapes of
non-printable characters are not modelled (no behaviour below depends on
them). The quote characters are built from code points to keep the
definition readable. -/
def pyStrRepr (s : String) : String :=
  let sq : Char := Char.ofNat 39
  let dq : Char := Char.ofNat 34
  let bs : Char := Char.ofNat 92
  let q : Char := if s.contains sq && !(s.contains dq) then dq else sq
  let escaped := s.foldl
    (fun acc c => if c == bs || c == q then (acc.push bs).push c else acc.push c) ""
  q.toString ++ escaped ++ q.toString

mutual

/-- Python `repr` of a parsed JSON value (`None`, `True`, `42`, quoted
strings, and bracketed containers whose elements are themselves
formatted with `repr`). -/
def pyRepr : Json → String
  | .null => "None"
  | .bool b => if b then "True" else "False"
  | .num n => toString n
  | .str s => pyStrRepr s
  | .arr xs => "[" ++ pyReprList xs ++ "]"
  | .obj kvs => "\x7b" ++ pyReprFields kvs ++ "\x7d"

/-- Comma-separated `repr` of list elements. -/
def pyReprList : List Json → String
  | [] => ""
  | [x] => pyRepr x
  | x :: xs => pyRepr x ++ ", " ++ pyReprList xs

/-- Comma-separated `repr` of dict entries. -/
def pyReprFields : List (String × Json) → String
  | [] => ""
  | [(k, v)] => pyStrRepr k ++ ": " ++ pyRepr v
  | (k, v) :: kvs => pyStrRepr k ++ ": " ++ pyRepr v ++ ", " ++ pyReprFields kvs

end

/-- Python `str()` of a parsed JSON value, as an f-string interpolates it:
a string formats as itself, every other value as its `repr`. -/
def pyStr : Json → String
  | .str s => s
  | j => pyRepr j

/-- Python type name of a parsed JSON value, as interpreter error messages
show it. -/
def pyTypeName : Json → String
  | .null => "NoneType"
  | .bool _ => "bool"
  | .num _ => "int"
  | .str _ => "str"
  | .arr _ => "list"
  | .obj _ => "dict"

/-- Exceptions that the response-handling code of `Client.resolve` can
raise: the SDK's own `Error` (trp.py line 33, carrying a message and
auxiliary data) and the interpreter exceptions raised by `in`, subscripting
and `.get` on unsuitable values. The description strings of the
interpreter exceptions are representative of CPython's wording; nothing
proved below depends on their exact text. -/
inductive PyExc where
  | trpError (message : Json) (data : Json)
  | typeError (desc : String)
  | attrError (desc : String)
  | keyError (key : String)

/-- Python substring test `needle in s`. The empty needle is contained in
every string. -/
def strContains (s needle : String) : Bool :=
  needle.isEmpty || (s.splitOn needle).length != 1

/-- Python membership test `key in value` for a string key: key lookup on
a dict, element equality on a list, substring test on a string, and a
`TypeError` on the remaining (non-container) values. -/
def pyContains (j : Json) (k : String) : Except PyExc Bool :=
  match j with
  | .obj kvs => .ok (kvs.lookup k).isSome
  | .arr xs => .ok (xs.any (fun e => match e with | .str s => s == k | _ => false))
  | .str s => .ok (strContains s k)
  | _ => .error (.typeError
      ("argument of type " ++ pyStrRepr (pyTypeName j) ++ " is not iterable"))

/-- Python subscript `value[key]` with a string key: dict lookup (a
`KeyError` when the key is absent), a `TypeError` on every non-dict
value. -/
def pyIndex (j : Json) (k : String) : Except PyExc Json :=
  match j with
  | .obj kvs =>
    match kvs.lookup k with
    | some v => .ok v
    | none => .error (.keyError k)
  | .str _ => .error (.typeError "string indices must be integers")
  | .arr _ => .error (.typeError "list indices must be integers or slices, not str")
  | _ => .error (.typeError (pyStrRepr (pyTypeName j) ++ " object is not subscriptable"))

/-- Python `value.get(key)` on a dict: the stored value, or Python `None`
(here `Json.null`) when the key is absent — the two are indistinguishable
to the caller. On any non-dict value, an `AttributeError`. -/
def pyGet (j : Json) (k : String) : Except PyExc Json :=
  match j with
  | .obj kvs => .ok ((kvs.lookup k).getD .null)
  | _ => .error (.attrError
      (pyStrRepr (pyTypeName j) ++ " object has no attribute " ++ pyStrRepr "get"))

/-- Python `value.get(key, default)` on a dict: the stored value (even when
it is `None`), or the default when the key is absent. -/
def pyGetD (j : Json) (k : String) (d : Json) : Except PyExc Json :=
  match j with
  | .obj kvs => .ok ((kvs.lookup k).getD d)
  | _ => .error (.attrError
      (pyStrRepr (pyTypeName j) ++ " object has no attribute " ++ pyStrRepr "get"))

/-- `str(e)` of the SDK `Error` exception: its constructor passes
`f"\x7bmessage\x7d: \x7bdata\x7d" if data else message` to
`Exception.__init__` (trp.py line 38), so the data part is appended only
when the data is truthy. -/
def errStr (message data : Json) : String :=
  if pyTruthy data then pyStr message ++ ": " ++ pyStr data else pyStr message

/-- `str(e)` for each exception the response-handling code can raise
(`str` of a `KeyError` is the `repr` of the missing key). -/
def pyExcStr : PyExc → String
  | .trpError m d => errStr m d
  | .typeError desc => desc
  | .attrError desc => desc
  | .keyError k => pyStrRepr k

/-- The exception propagating out of
`raise Error(result["error"].get("message", "Unknown error"),
result["error"].get("data"))` (trp.py lines 113-116): evaluating the
arguments can itself raise an `AttributeError` when the error value is not
a dict; otherwise the SDK `Error` is raised with the extracted message and
data. -/
def rpcErrorExc (errVal : Json) : PyExc :=
  match pyGetD errVal "message" (.str "Unknown error") with
  | .error e => e
  | .ok msg =>
    match pyGet errVal "data" with
    | .error e => e
    | .ok dat => .trpError msg dat

/-- Lines 112-122 of `Client.resolve`: inspect the parsed response body
`result`. `if "error" in result` / `if "result" not in result` /
`return result["result"]`, with every raised exception surfaced in the
error component. -/
def handleBody (result : Json) : Except PyExc Json :=
  match pyContains result "error" with
  | .error e => .error e
  | .ok true =>
    match pyIndex result "error" with
    | .error e => .error e
    | .ok errVal => .error (rpcErrorExc errVal)
  | .ok false =>
    match pyContains result "result" with
    | .error e => .error e
    | .ok true => pyIndex result "result"
    | .ok false => .error (.trpError (.str "No result found in response") .null)

/-- `Client._validate_options` (trp.py lines 46-62) on a raw configuration
mapping: raises `ValueError` when no `endpoint` entry exists, otherwise
copies `endpoint` and — when present — `headers` and `env_args` into the
validated mapping, silently ignoring every other entry. -/
def validate_options (options : List (String × Json)) :
    Except String (List (String × Json)) :=
  match options.lookup "endpoint" with
  | none => .error "The \x27endpoint\x27 option is required"
  | some e =>
    .ok ([("endpoint", e)]
      ++ (match options.lookup "headers" with
          | some h => [("headers", h)]
          | none => [])
      ++ (match options.lookup "env_args" with
          | some v => [("env_args", v)]
          | none => []))

/-- The validated client configuration, at the types the `ClientOptions`
TypedDict declares (trp.py lines 27-30): `headers` maps header names to
strings; `env_args` is kept as a raw JSON value because the client passes
it through verbatim. For both optional fields, `none` covers an absent
field as well as a field set to Python `None` — `dict.get` does not
distinguish the two. -/
structure ClientOptions where
  endpoint : String
  headers : Option (List (String × String))
  env_args : Option Json

/-- The default request headers (trp.py lines 78-80). -/
def defaultHeaders : List (String × String) := [("Content-Type", "application/json")]

/-- Python `dict.update`: keys already in the base dict keep their position
and take the updating dict's value; new keys are appended in the updating
dict's order. -/
def dictUpdate (base upd : List (String × String)) : List (String × String) :=
  base.map (fun kv => (kv.1, (upd.lookup kv.1).getD kv.2))
    ++ upd.filter (fun kv => (base.lookup kv.1).isNone)

/-- Request-header construction in `Client.resolve` (trp.py lines 78-83):
`headers.update(self.options["headers"])` runs only when
`self.options.get("headers")` is truthy, that is, when the configured
header dict is present and non-empty. -/
def buildHeaders (opts : ClientOptions) : List (String × String) :=
  match opts.headers with
  | some h => if h.isEmpty then defaultHeaders else dictUpdate defaultHeaders h
  | none => defaultHeaders

/-- Field lookup on a JSON object value (`none` on non-objects). -/
def jget (j : Json) (k : String) : Option Json :=
  match j with
  | .obj kvs => kvs.lookup k
  | _ => none

/-- The JSON-RPC request body built by `Client.resolve` (trp.py lines
86-95). `freshId` stands for the `str(uuid.uuid4())` drawn for this call
at line 94; `proto_tx.get` sends `null` for an absent `tir`/`args`, and
`env` is the configured `env_args` (or `null` when not configured). -/
def buildBody (opts : ClientOptions) (proto_tx : List (String × Json))
    (freshId : String) : Json :=
  .obj [("jsonrpc", .str "2.0"),
        ("method", .str "trp.resolve"),
        ("params", .obj [("tir", (proto_tx.lookup "tir").getD .null),
                         ("args", (proto_tx.lookup "args").getD .null),
                         ("env", opts.env_args.getD .null)]),
        ("id", .str freshId)]

/-- Outcome of the single HTTP POST, as the code observes it: either an
`httpx.RequestError` (no response obtained), or a response carrying a
status code, its raw body text, and the result of `response.json()`
(`Except.error` models a `json.JSONDecodeError` with the parser's
message). -/
inductive Transport where
  | requestError (desc : String)
  | response (status : Nat) (text : String) (parsed : Except String Json)

/-- The raise site of the `Error` that `resolve` surfaces, following the
specification's error taxonomy: one kind per `raise` statement of trp.py.
The `rpcError` and `malformedResponse` kinds tag the raise statements at
lines 113 and 120; as proved below they never surface, because those
raises sit inside the `try` block and are re-wrapped by the final
`except Exception` handler. -/
inductive ErrorKind where
  | httpError
  | networkError
  | decodeError
  | rpcError
  | malformedResponse
  | unknownError

/-- The SDK `Error` as `resolve` surfaces it, tagged with the raise site
it escaped from. -/
structure TrpError where
  kind : ErrorKind
  message : String
  data : Json

/-- The control flow of `Client.resolve` after the POST (trp.py lines
97-131). `response.raise_for_status()` raises `httpx.HTTPStatusError`
exactly when the status is not 2xx, handled at line 124 as
`Error(f"HTTP Error \x7bstatus\x7d", text)`. A `json.JSONDecodeError`
from `response.json()` is handled at line 128. The `raise Error(...)`
statements at lines 113 and 120 sit inside the `try` block, so they are
caught by the final `except Exception` at line 130 — the SDK `Error` is an
`Exception` subclass — and re-wrapped as `Error("Unknown error", str(e))`,
as is any interpreter exception raised while inspecting the body. -/
def resolveOutcome (t : Transport) : Except TrpError Json :=
  match t with
  | .requestError desc => .error ⟨.networkError, "Network error", .str desc⟩
  | .response status text parsed =>
    if status < 200 ∨ 300 ≤ status then
      .error ⟨.httpError, "HTTP Error " ++ toString status, .str text⟩
    else
      match parsed with
      | .error desc => .error ⟨.decodeError, "Error decoding JSON response", .str desc⟩
      | .ok result =>
        match handleBody result with
        | .ok v => .ok v
        | .error e => .error ⟨.unknownError, "Unknown error", .str (pyExcStr e)⟩

/-- One call of `Client.resolve`: the headers and body handed to
`self.client.post`, and the returned envelope or raised `Error`. -/
structure ResolveCall where
  sentHeaders : List (String × String)
  sentBody : Json
  outcome : Except TrpError Json

/-- `Client.resolve` (trp.py lines 64-131) for one call, with the per-call
UUID draw and the transport outcome as explicit inputs. -/
def resolveCall (opts : ClientOptions) (proto_tx : List (String × Json))
    (freshId : String) (t : Transport) : ResolveCall :=
  { sentHeaders := buildHeaders opts
    sentBody := buildBody opts proto_tx freshId
    outcome := resolveOutcome t }

/-- A `Client` instance after construction: it owns the validated,
configuration. The transport handle carries no state the embedding
needs. -/
structure Client where
  options : ClientOptions

/-- State-passing translation of the `resolve` method: every statement of
lines 77-131 only reads `self.options` and local variables — none assigns
to any attribute of `self` — so the post-state of the client equals its
pre-state. -/
def Client.resolve (c : Client) (proto_tx : List (String × Json))
    (freshId : String) (t : Transport) : Client × ResolveCall :=
  (c, resolveCall c.options proto_tx freshId t)

/-- C1: on an HTTP 200 response whose body is
`\x7b"error": \x7b"message": "bad tir"\x7d\x7d`, the `Error` raised at
trp.py line 113 with the server's message is caught by the bare
`except Exception` at line 130 and re-wrapped, so `resolve` surfaces
`Error("Unknown error", "bad tir")` from the catch-all raise site — not a
failure of kind `RpcError` with message `"bad tir"` as the claim states. -/
theorem resolve_rpc_error_rewrapped :
    (resolveCall ⟨"http://resolver", none, none⟩ [] "id0"
        (.response 200 "t"
          (.ok (.obj [("error", .obj [("message", .str "bad tir")])])))).outcome
      = .error ⟨.unknownError, "Unknown error", .str "bad tir"⟩ := rfl

/-- C2: on an HTTP 200 response whose body is `\x7b"status": "ok"\x7d`
(neither `result` nor `error`), the `Error("No result found in response")`
raised at trp.py line 120 is caught by the bare `except Exception` at line
130 and re-wrapped, so `resolve` surfaces `Error("Unknown error",
"No result found in response")` — the claimed message sits in the auxiliary
data of an `UnknownError`-site failure, not in the message of a
`MalformedResponse` failure without data. -/
theorem resolve_no_result_rewrapped :
    (resolveCall ⟨"http://resolver", none, none⟩ [] "id0"
        (.response 200 "t"
          (.ok (.obj [("status", .str "ok")])))).outcome
      = .error ⟨.unknownError, "Unknown error", .str "No result found in response"⟩ := rfl

/-- C3 counterexample: a configuration whose `endpoint` is the empty
string passes `_validate_options` — construction succeeds, refuting the
claim that an empty `endpoint` fails validation. -/
theorem validate_options_empty_endpoint_ok :
    validate_options [("endpoint", Json.str "")]
      = .ok [("endpoint", Json.str "")] := rfl

/-- C3 amended: construction fails, with the `ValueError` message
`The \x27endpoint\x27 option is required`, exactly when the `endpoint`
field is absent from the configuration mapping — regardless of what other
fields are supplied; every mapping with an `endpoint` entry (even the
empty string) is accepted. -/
theorem validate_options_requires_endpoint (options : List (String × Json)) :
    ((validate_options options).isOk = (options.lookup "endpoint").isSome)
    ∧ (options.lookup "endpoint" = none →
        validate_options options = .error "The \x27endpoint\x27 option is required") := by
  constructor
  · unfold validate_options
    cases options.lookup "endpoint" <;> rfl
  · intro h
    unfold validate_options
    rw [h]

/-- C3 amended, witness: a configuration supplying other fields but no
`endpoint` is rejected with the `ValueError` message. -/
theorem validate_options_requires_endpoint_witness :
    validate_options [("headers", Json.obj []), ("env_args", Json.null)]
      = .error "The \x27endpoint\x27 option is required" :=
  (validate_options_requires_endpoint
    [("headers", Json.obj []), ("env_args", Json.null)]).2 rfl

/-- C4: for every configuration, prototype transaction, per-call id and
transport outcome, the JSON-RPC body handed to `post` has
`jsonrpc = "2.0"`, `method = "trp.resolve"`, `id` equal to the per-call
fresh identifier, and a `params` object whose `tir` and `args` are the
input's fields (`null` when absent) and whose `env` is the configured
`env_args` verbatim (`null` when not configured). -/
theorem resolve_body_fields (opts : ClientOptions) (proto_tx : List (String × Json))
    (freshId : String) (t : Transport) :
    jget (resolveCall opts proto_tx freshId t).sentBody "jsonrpc" = some (.str "2.0")
    ∧ jget (resolveCall opts proto_tx freshId t).sentBody "method" = some (.str "trp.resolve")
    ∧ jget (resolveCall opts proto_tx freshId t).sentBody "id" = some (.str freshId)
    ∧ ∃ params, jget (resolveCall opts proto_tx freshId t).sentBody "params" = some params
        ∧ jget params "tir" = some ((proto_tx.lookup "tir").getD .null)
        ∧ jget params "args" = some ((proto_tx.lookup "args").getD .null)
        ∧ jget params "env" = some (opts.env_args.getD .null) :=
  ⟨rfl, rfl, rfl, _, rfl, rfl, rfl, rfl⟩

/-- C5 counterexample: an HTTP 500 response with body `"internal error"`
and an HTTP 404 response with the same body produce failures whose
auxiliary data are equal — the bare body text — so the auxiliary data does
not carry the numeric status code; the code places the status in the
message instead. -/
theorem http_error_status_not_in_data :
    ((resolveCall ⟨"http://resolver", none, none⟩ [] "id0"
        (.response 500 "internal error" (.error "boom"))).outcome
      = .error ⟨.httpError, "HTTP Error 500", .str "internal error"⟩)
    ∧ ((resolveCall ⟨"http://resolver", none, none⟩ [] "id0"
        (.response 404 "internal error" (.error "boom"))).outcome
      = .error ⟨.httpError, "HTTP Error 404", .str "internal error"⟩) := ⟨rfl, rfl⟩

/-- C5 amended: for every response whose HTTP status is 4xx or 5xx,
`resolve` fails with error kind `HttpError`, whose message
`HTTP Error <status>` carries the numeric status code and whose auxiliary
data is the raw response body text; the outcome is the same for every
value of the parsed body, so the failure is decided before any attempt to
parse the body as JSON. -/
theorem resolve_http_error (opts : ClientOptions) (proto_tx : List (String × Json))
    (freshId : String) (status : Nat) (text : String) (parsed : Except String Json)
    (h4 : 400 ≤ status) (h5 : status ≤ 599) :
    (resolveCall opts proto_tx freshId (.response status text parsed)).outcome
      = .error ⟨.httpError, "HTTP Error " ++ toString status, .str text⟩ := by
  have h : status < 200 ∨ 300 ≤ status := Or.inr (by omega)
  simp [resolveCall, resolveOutcome, h]

/-- C5 amended, witness: the HTTP 500 case, with a body that would even
parse successfully — the HttpError still wins. -/
theorem resolve_http_error_witness :
    (resolveCall ⟨"http://resolver", none, none⟩ [] "id5"
        (.response 500 "internal error"
          (.ok (.obj [("result", .str "x")])))).outcome
      = .error ⟨.httpError, "HTTP Error " ++ toString 500, .str "internal error"⟩ :=
  resolve_http_error ⟨"http://resolver", none, none⟩ [] "id5" 500 "internal error"
    (.ok (.obj [("result", .str "x")])) (by omega) (by omega)

/-- C6: on an HTTP 200 response whose body parses to an object with a
`result` field and no `error` field, `resolve` returns the `result` value
verbatim — `v` is an arbitrary JSON value here, so no schema validation of
its internal shape is performed. -/
theorem resolve_result_passthrough (opts : ClientOptions)
    (proto_tx : List (String × Json)) (freshId : String) (text : String)
    (kvs : List (String × Json)) (v : Json)
    (he : kvs.lookup "error" = none) (hr : kvs.lookup "result" = some v) :
    (resolveCall opts proto_tx freshId (.response 200 text (.ok (.obj kvs)))).outcome
      = .ok v := by
  simp [resolveCall, resolveOutcome, handleBody, pyContains, pyIndex, he, hr]

/-- C6 witness: the specification's example — body
`\x7b"result": \x7b"tx": "abc123"\x7d\x7d` yields the envelope
`\x7b"tx": "abc123"\x7d` with no error. -/
theorem resolve_result_passthrough_witness :
    (resolveCall ⟨"http://resolver", none, none⟩ [] "id6"
        (.response 200 "t"
          (.ok (.obj [("result", .obj [("tx", .str "abc123")])])))).outcome
      = .ok (.obj [("tx", .str "abc123")]) :=
  resolve_result_passthrough ⟨"http://resolver", none, none⟩ [] "id6" "t"
    [("result", .obj [("tx", .str "abc123")])] (.obj [("tx", .str "abc123")]) rfl rfl

/-- Helper: a key different from `c` looks up the same value after the
entries with key `c` are filtered out. -/
theorem lookup_filter_ne (l : List (String × String)) (k c : String) (hk : k ≠ c) :
    (l.filter (fun kv => !(kv.1 == c))).lookup k = l.lookup k := by
  induction l with
  | nil => rfl
  | cons hd tl ih =>
    obtain ⟨k1, v1⟩ := hd
    by_cases h1 : k1 = c
    · have hkc : (k == c) = false := beq_false_of_ne hk
      simp [List.filter_cons, h1, List.lookup, hkc, ih]
    · have h1b : (k1 == c) = false := beq_false_of_ne h1
      by_cases hkk : k = k1
      · subst hkk
        simp [List.filter_cons, h1b, List.lookup]
      · have hkkb : (k == k1) = false := beq_false_of_ne hkk
        simp [List.filter_cons, h1b, List.lookup, hkkb, ih]

/-- Helper: keeping the keys absent from the singleton default-header dict
is keeping the keys different from `Content-Type`. -/
theorem filter_not_in_default (h : List (String × String)) :
    h.filter (fun kv => ((defaultHeaders.lookup kv.1).isNone : Bool))
      = h.filter (fun kv => !(kv.1 == "Content-Type")) := by
  apply List.filter_congr
  intro kv _
  by_cases hc : kv.1 = "Content-Type"
  · simp [defaultHeaders, List.lookup, hc]
  · have hcb : (kv.1 == "Content-Type") = false := beq_false_of_ne hc
    simp [defaultHeaders, List.lookup, hcb]

/-- Helper: lookup in the result of merging a configured header dict onto
the default headers. -/
theorem dictUpdate_default_lookup (h : List (String × String)) (k : String) :
    (dictUpdate defaultHeaders h).lookup k
      = if k = "Content-Type"
          then some ((h.lookup "Content-Type").getD "application/json")
          else h.lookup k := by
  unfold dictUpdate
  rw [filter_not_in_default]
  by_cases hk : k = "Content-Type"
  · subst hk
    simp [defaultHeaders, List.lookup]
  · have hkb : (k == "Content-Type") = false := beq_false_of_ne hk
    simp [defaultHeaders, List.lookup, hk, hkb, lookup_filter_ne _ _ _ hk]

/-- C7: the headers sent by `resolve` start from the single default entry
`Content-Type: application/json` and merge the configured headers on top:
every configured header (including a configured `Content-Type`, which
overrides the default) appears in the sent headers with its configured
value, and the default `Content-Type` is present whenever the
configuration does not redefine it. -/
theorem resolve_sent_headers (opts : ClientOptions) (proto_tx : List (String × Json))
    (freshId : String) (t : Transport) :
    (∀ h k v, opts.headers = some h → h.lookup k = some v →
        (resolveCall opts proto_tx freshId t).sentHeaders.lookup k = some v)
    ∧ (∀ h, opts.headers = some h → h.lookup "Content-Type" = none →
        (resolveCall opts proto_tx freshId t).sentHeaders.lookup "Content-Type"
          = some "application/json")
    ∧ (opts.headers = none →
        (resolveCall opts proto_tx freshId t).sentHeaders.lookup "Content-Type"
          = some "application/json") := by
  refine ⟨?_, ?_, ?_⟩
  · intro h k v hh hl
    have hne : h.isEmpty = false := by
      cases h with
      | nil => simp [List.lookup] at hl
      | cons a l => rfl
    show (buildHeaders opts).lookup k = some v
    simp only [buildHeaders, hh, hne]
    simp only [Bool.false_eq_true, if_false, dictUpdate_default_lookup]
    by_cases hk : k = "Content-Type"
    · subst hk
      simp [hl]
    · simp [hk, hl]
  · intro h hh hct
    show (buildHeaders opts).lookup "Content-Type" = some "application/json"
    simp only [buildHeaders, hh]
    by_cases hE : h.isEmpty
    · simp [hE, defaultHeaders, List.lookup]
    · simp [hE, dictUpdate_default_lookup, hct]
  · intro hn
    show (buildHeaders opts).lookup "Content-Type" = some "application/json"
    simp [buildHeaders, hn, defaultHeaders, List.lookup]

/-- C7 witness: a configuration with an additive header and a redefined
`Content-Type` — the additive header appears in the sent headers. -/
theorem resolve_sent_headers_witness :
    (resolveCall
        ⟨"http://resolver", some [("X-Api-Key", "k1"), ("Content-Type", "text/plain")], none⟩
        [] "id7" (.requestError "down")).sentHeaders.lookup "X-Api-Key" = some "k1" :=
  (resolve_sent_headers
      ⟨"http://resolver", some [("X-Api-Key", "k1"), ("Content-Type", "text/plain")], none⟩
      [] "id7" (.requestError "down")).1
    [("X-Api-Key", "k1"), ("Content-Type", "text/plain")] "X-Api-Key" "k1" rfl rfl

/-- C8: the `id` field of the JSON-RPC body is exactly the identifier
freshly drawn for that call at trp.py line 94 — no stored or shared id is
used — so any two calls (on the same or different client instances) whose
per-call draws differ send bodies with different `id` fields. -/
theorem resolve_ids_differ (o1 o2 : ClientOptions)
    (p1 p2 : List (String × Json)) (i1 i2 : String) (t1 t2 : Transport)
    (h : i1 ≠ i2) :
    jget (resolveCall o1 p1 i1 t1).sentBody "id"
      ≠ jget (resolveCall o2 p2 i2 t2).sentBody "id" := by
  intro heq
  have h1 : jget (resolveCall o1 p1 i1 t1).sentBody "id" = some (.str i1) := rfl
  have h2 : jget (resolveCall o2 p2 i2 t2).sentBody "id" = some (.str i2) := rfl
  rw [h1, h2] at heq
  exact h (Json.str.inj (Option.some.inj heq))

/-- C8 witness: two calls with distinct draws send distinct ids. -/
theorem resolve_ids_differ_witness :
    jget (resolveCall ⟨"http://resolver", none, none⟩ [] "id-a"
        (.requestError "down")).sentBody "id"
      ≠ jget (resolveCall ⟨"http://resolver", none, none⟩ [] "id-b"
        (.requestError "down")).sentBody "id" :=
  resolve_ids_differ ⟨"http://resolver", none, none⟩ ⟨"http://resolver", none, none⟩
    [] [] "id-a" "id-b" (.requestError "down") (.requestError "down") (by decide)

/-- C9: a call to `resolve` leaves the client's options record unchanged,
whatever the prototype transaction, per-call id and transport outcome —
the translated method reads `self.options` but never assigns to it, so the
post-state client equals the pre-state client. -/
theorem resolve_preserves_options (c : Client) (proto_tx : List (String × Json))
    (freshId : String) (t : Transport) :
    ((Client.resolve c proto_tx freshId t).1).options = c.options
    ∧ (Client.resolve c proto_tx freshId t).1 = c := ⟨rfl, rfl⟩

/-- Helper: on a non-object body the response handling of lines 112-122
always raises — each Python operation it performs on such a value either
raises a `TypeError` outright or leads to one of the `raise Error(...)`
statements. -/
theorem handleBody_not_ok_of_not_obj (j : Json) (h : ∀ kvs, j ≠ Json.obj kvs) :
    ∃ e, handleBody j = .error e := by
  cases j with
  | null => exact ⟨_, rfl⟩
  | bool b => exact ⟨_, rfl⟩
  | num n => exact ⟨_, rfl⟩
  | str s =>
    simp only [handleBody, pyContains, pyIndex]
    cases strContains s "error" <;> cases strContains s "result" <;> exact ⟨_, rfl⟩
  | arr xs =>
    simp only [handleBody, pyContains, pyIndex]
    cases xs.any (fun e => match e with | .str s => s == "error" | _ => false)
      <;> cases xs.any (fun e => match e with | .str s => s == "result" | _ => false)
      <;> exact ⟨_, rfl⟩
  | obj kvs => exact absurd rfl (h kvs)

/-- Helper: the response handling of lines 112-122 returns a value exactly
when the body is an object with no `error` key whose `result` key holds
that value. -/
theorem handleBody_ok_iff (j : Json) (v : Json) :
    handleBody j = .ok v
      ↔ ∃ kvs, j = Json.obj kvs ∧ kvs.lookup "error" = none
          ∧ kvs.lookup "result" = some v := by
  constructor
  · intro hok
    cases j with
    | obj kvs =>
      refine ⟨kvs, rfl, ?_⟩
      simp only [handleBody, pyContains] at hok
      cases hE : kvs.lookup "error" with
      | some a =>
        rw [hE] at hok
        simp only [Option.isSome_some] at hok
        simp only [pyIndex, hE] at hok
        cases hok
      | none =>
        rw [hE] at hok
        simp only [Option.isSome_none] at hok
        cases hR : kvs.lookup "result" with
        | none =>
          rw [hR] at hok
          simp only [Option.isSome_none] at hok
          cases hok
        | some w =>
          rw [hR] at hok
          simp only [Option.isSome_some, pyIndex, hR] at hok
          exact ⟨rfl, congrArg some (Except.ok.inj hok)⟩
    | null => cases hok
    | bool b => cases hok
    | num n => cases hok
    | str s =>
      obtain ⟨e, he⟩ := handleBody_not_ok_of_not_obj (.str s) (fun kvs h => by cases h)
      rw [he] at hok
      cases hok
    | arr xs =>
      obtain ⟨e, he⟩ := handleBody_not_ok_of_not_obj (.arr xs) (fun kvs h => by cases h)
      rw [he] at hok
      cases hok
  · rintro ⟨kvs, rfl, hE, hR⟩
    simp [handleBody, pyContains, pyIndex, hE, hR]

/-- C10: on an HTTP 200 response whose body parses to a JSON value that is
not an object, `resolve` fails with a typed error — and a successful
return happens exactly when the parsed body is an object with a `result`
key and no `error` key, returning that key's value. -/
theorem resolve_needs_object (opts : ClientOptions) (proto_tx : List (String × Json))
    (freshId : String) (text : String) (j : Json) :
    ((∀ kvs, j ≠ Json.obj kvs) →
        (resolveCall opts proto_tx freshId (.response 200 text (.ok j))).outcome.isOk
          = false)
    ∧ (∀ v, (resolveCall opts proto_tx freshId (.response 200 text (.ok j))).outcome
          = .ok v
        → ∃ kvs, j = Json.obj kvs ∧ kvs.lookup "error" = none
            ∧ kvs.lookup "result" = some v) := by
  have houtcome :
      (resolveCall opts proto_tx freshId (.response 200 text (.ok j))).outcome
        = match handleBody j with
          | .ok v => .ok v
          | .error e => .error ⟨.unknownError, "Unknown error", .str (pyExcStr e)⟩ := by
    simp [resolveCall, resolveOutcome]
  constructor
  · intro h
    obtain ⟨e, he⟩ := handleBody_not_ok_of_not_obj j h
    rw [houtcome, he]
    rfl
  · intro v hv
    rw [houtcome] at hv
    cases hb : handleBody j with
    | error e =>
      rw [hb] at hv
      cases hv
    | ok w =>
      rw [hb] at hv
      have := (handleBody_ok_iff j w).1 hb
      rwa [Except.ok.inj hv] at this

/-- C10 witness: a 200 response whose body parses to the empty JSON array
fails. -/
theorem resolve_needs_object_witness :
    (resolveCall ⟨"http://resolver", none, none⟩ [] "id10"
        (.response 200 "[]" (.ok (Json.arr [])))).outcome.isOk = false :=
  (resolve_needs_object ⟨"http://resolver", none, none⟩ [] "id10" "[]" (Json.arr [])).1
    (fun kvs h => by cases h)
